import Mathlib

/-! Verification of the mensageiro periodic reporting bots.

This file gives a shallow embedding of the three scripts of the repository
(bot_monitoramento.py, bot_resumo_diario.py, bot_superset_slack.py): the
execution-window predicate, the connectivity gate, the job bodies with
their exception behaviour, the per-call engine lifecycle of run_query, the
currency and percentage formatters, and a Scheduler modelled from the
specification (the scheduling engine the scripts drive is the third-party
schedule library, whose code is not part of the repository's sources).
Exceptions are modelled with the Except monad: a function whose Python body
can raise returns an Except, and an error value means the exception
propagates to the caller. -/

namespace Mensageiro

/-- outcome of one job execution attempt: skipped by the window policy,
completed normally, or failed with the caught error. -/
inductive JobOutcome
  | Skipped (reason : String)
  | Succeeded
  | Failed (error : String)
deriving DecidableEq

/-- the fields of a Python datetime that the window predicate reads:
weekday() with Monday = 0 .. Sunday = 6, and the hour. -/
structure PyDateTime where
  weekday : Nat
  hour : Nat
deriving DecidableEq

/-- embeds dentro_da_janela_execucao (bot_monitoramento.py lines 177-180):
False on Sunday (weekday() == 6), otherwise tests 6 <= hour < 20. -/
def dentro_da_janela_execucao (agora : PyDateTime) : Bool :=
  if agora.weekday = 6 then false
  else decide (6 ≤ agora.hour ∧ agora.hour < 20)

/-- embeds the retry loop of wait_for_vpn_and_db (bot_monitoramento.py
lines 113-127 and, identically, bot_resumo_diario.py lines 177-191).
reach k tells whether the k-th socket.create_connection attempt succeeds;
a failed attempt is an OSError that the loop catches before sleeping one
poll interval.  The Python loop is unbounded, so it is unrolled here to a
fuel bound; the result is the index of the first successful attempt,
which is also the number of interval-long sleeps taken before returning.
No error value exists in the return type: the function either returns on
a successful attempt or does not return within the given fuel. -/
def wait_for_vpn_and_db (reach : Nat → Bool) : Nat → Nat → Option Nat
  | _, 0 => none
  | k, fuel + 1 =>
      if reach k then some k else wait_for_vpn_and_db reach (k + 1) fuel

/-- possible behaviours of one Slack delivery attempt inside post_to_slack:
either an exception is raised while building the message lines or during
requests.post itself, or an HTTP response arrives carrying the r.ok flag
and, when the body is read, either a JSON decoding error or the truthiness
of the "ok" field of the decoded body. -/
inductive SinkResp
  | raised (e : String)
  | resp (httpOk : Bool) (body : Except String Bool)

/-- embeds post_to_slack (bot_monitoramento.py lines 150-174) from the
requests.post call on, mirroring the short-circuit of the check
`if not r.ok or not r.json().get("ok")`: when r.ok is false the rejection
is logged without reading the body; otherwise the body is read - a decode
error escapes as an exception - and a falsy "ok" field logs the rejection.
Returns whether a rejection was logged; an error value is an exception
escaping post_to_slack into the caller. -/
def post_to_slack (s : SinkResp) : Except String Bool :=
  match s with
  | .raised e => .error e
  | .resp httpOk body =>
      if httpOk then
        match body with
        | .error e => .error e
        | .ok jsonOk => .ok (!jsonOk)
      else .ok true

/-- the external behaviour one job run is exposed to: the result of the
SQL read (the rows, or the exception pd.read_sql raises) and the
behaviour of the Slack delivery. -/
structure World where
  fetch : Except String (List String)
  sink : SinkResp

/-- observable trace of one job run: the outcome together with which
external effects were attempted during the run. -/
structure RunTrace where
  outcome : JobOutcome
  gateWaited : Bool
  fetchAttempted : Bool
  deliverAttempts : Nat
  rejectionLogged : Bool
deriving DecidableEq

/-- embeds job_novo (bot_monitoramento.py lines 183-194).  Outside the
window it returns at once - modelled as Skipped - without calling
run_query, hence without the connectivity wait, without creating an
engine and without the Slack post.  Inside the window the whole body sits
under `try: ... except Exception`, so an error from run_query or from
post_to_slack is converted to Failed.  The outer Except is the exception
channel to the caller: every branch is ok, mirroring the catch-all
handler.  run_query calls wait_for_vpn_and_db first, which the trace
records as gateWaited. -/
def job_novo (agora : PyDateTime) (w : World) : Except String RunTrace :=
  if dentro_da_janela_execucao agora then
    match w.fetch with
    | .error e =>
        .ok { outcome := .Failed e, gateWaited := true, fetchAttempted := true,
              deliverAttempts := 0, rejectionLogged := false }
    | .ok _ =>
        match post_to_slack w.sink with
        | .error e =>
            .ok { outcome := .Failed e, gateWaited := true, fetchAttempted := true,
                  deliverAttempts := 1, rejectionLogged := false }
        | .ok logged =>
            .ok { outcome := .Succeeded, gateWaited := true, fetchAttempted := true,
                  deliverAttempts := 1, rejectionLogged := logged }
  else
    .ok { outcome := .Skipped ("Fora da janela"), gateWaited := false,
          fetchAttempted := false, deliverAttempts := 0, rejectionLogged := false }

/-- embeds job_refin (bot_monitoramento.py lines 196-207): identical to
job_novo up to the SQL text and the product label, neither of which the
model tracks. -/
def job_refin : PyDateTime → World → Except String RunTrace := job_novo

/-- embeds job_portability (bot_monitoramento.py lines 209-220): identical
to job_novo up to the SQL text and the product label. -/
def job_portability : PyDateTime → World → Except String RunTrace := job_novo

/-- embeds job_resumo (bot_resumo_diario.py lines 280-288): no window
check, and the whole body sits under try/except Exception, so the job
always returns normally with an outcome. -/
def job_resumo (w : World) : Except String RunTrace :=
  match w.fetch with
  | .error e =>
      .ok { outcome := .Failed e, gateWaited := true, fetchAttempted := true,
            deliverAttempts := 0, rejectionLogged := false }
  | .ok _ =>
      match post_to_slack w.sink with
      | .error e =>
          .ok { outcome := .Failed e, gateWaited := true, fetchAttempted := true,
                deliverAttempts := 1, rejectionLogged := false }
      | .ok logged =>
          .ok { outcome := .Succeeded, gateWaited := true, fetchAttempted := true,
                deliverAttempts := 1, rejectionLogged := logged }

/-- the external calls bot_superset_slack.py makes: the Superset login
(get_superset_token, whose raise_for_status can raise), the chart data
fetch (get_chart_data, likewise), and the slack_sdk chat_postMessage call
(which can raise SlackApiError). -/
structure SupersetWorld where
  login : Except String String
  chart : Except String (List (List Unit))
  slackPost : Except String Unit

/-- embeds processar (bot_superset_slack.py lines 48-68): an empty result
list yields the no-data message, otherwise the message reports the length
of the first result's data list; pure and total, the message texts are
abbreviated. -/
def processar (chartData : List (List Unit)) : String :=
  match chartData with
  | [] => "Nenhum dado retornado pelo chart 5840."
  | d :: _ => "Total de registros retornados: " ++ toString d.length

/-- embeds enviar_slack (bot_superset_slack.py lines 72-81): the handler
for SlackApiError prints the error and then executes a bare raise, so the
error value propagates to the caller unchanged. -/
def enviar_slack (_texto : String) (postResult : Except String Unit) :
    Except String Unit :=
  match postResult with
  | .ok u => .ok u
  | .error e => .error e

/-- embeds main (bot_superset_slack.py lines 85-98): login, chart fetch,
the pure transform, and delivery are sequenced with no exception handler,
so any error value propagates out of main to its caller. -/
def superset_main (w : SupersetWorld) : Except String Unit := do
  let _token ← w.login
  let chartData ← w.chart
  let mensagem := processar chartData
  enviar_slack mensagem w.slackPost

/-- Modelled from the spec: a ScheduleEntry of spec section 3.  The
scheduling engine the scripts drive is the third-party schedule library,
which is not part of the repository's sources; only the registrations
(schedule.every(30).minutes.do(job_novo), bot_monitoramento.py lines
224-226) and the run_pending loop (lines 236-238) are.  Following the
spec, an entry pairs a job with its interval rule and the instant it last
ran (none = never run); time is a count of time units, and the job itself
is a function from the dispatch instant to its outcome. -/
structure ScheduleEntry where
  name : String
  interval : Nat
  lastRun : Option Nat
  run : Nat → JobOutcome

/-- Modelled from the spec: interval-rule due-ness of spec section 4.4 -
due when now - last_run is at least the interval, or immediately when
last_run is null. -/
def isDue (now : Nat) (e : ScheduleEntry) : Bool :=
  match e.lastRun with
  | none => true
  | some t => decide (e.interval ≤ now - t)

/-- Modelled from the spec: the per-entry effect of tick(now) in spec
section 4.4 - when the entry is due its last_run is set to now
unconditionally, whatever outcome the dispatched run produces. -/
def tickEntry (now : Nat) (e : ScheduleEntry) : ScheduleEntry :=
  if isDue now e then { e with lastRun := some now } else e

/-- Modelled from the spec: tick(now) of spec section 4.4 - dispatches
every due entry in registration order, recording the name and outcome of
each dispatched run, and updates last_run of exactly the due entries. -/
def tick (now : Nat) (es : List ScheduleEntry) :
    List ScheduleEntry × List (String × JobOutcome) :=
  (es.map (tickEntry now),
   (es.filter (fun e => isDue now e)).map (fun e => (e.name, e.run now)))

/-- concrete registry mirroring the three registrations of
bot_monitoramento.py lines 224-226 at intervals 30, 40 and 50 time units,
with last-run instants chosen so that the first two entries are due at
instant 100 - one of them with a failing run, exercising the
unconditional last_run update - and the third is not. -/
def registroEsteiras : List ScheduleEntry :=
  [⟨"NOVO", 30, some 70, fun _ => .Succeeded⟩,
   ⟨"REFIN", 40, some 50, fun _ => .Failed ("erro")⟩,
   ⟨"PORTABILITY", 50, some 90, fun _ => .Succeeded⟩]

/-- resource events of one run_query call on the SQLAlchemy engine. -/
inductive DbEv
  | createEngine
  | beginConn
  | closeConn
  | disposeEngine
deriving DecidableEq

/-- embeds the engine lifecycle of run_query (bot_monitoramento.py lines
130-147 and, identically, bot_resumo_diario.py lines 193-210):
create_engine, then `with engine.begin() as conn` - whose context manager
closes the checked-out connection on both the normal and the exceptional
exit - and then engine.dispose(), which stands after the with block on
the straight-line path only, so it is not executed when pd.read_sql
raises.  Returns the read result together with the ordered resource
events of the call. -/
def run_query (fetch : Except String (List String)) :
    Except String (List String) × List DbEv :=
  match fetch with
  | .ok df => (.ok df, [.createEngine, .beginConn, .closeConn, .disposeEngine])
  | .error e => (.error e, [.createEngine, .beginConn, .closeConn])

/-- the ten digit characters. -/
def digitChars : List Char := ['0', '1', '2', '3', '4', '5', '6', '7', '8', '9']

/-- action of str.replace with a single-character pattern on one
character: old becomes new, everything else is unchanged. -/
def rc1 (old new ch : Char) : Char :=
  if ch = old then new else ch

/-- the per-character action of the replace chain of format_brl: the
three single-character replaces composed. -/
def swapChar (ch : Char) : Char :=
  rc1 'X' '.' (rc1 '.' ',' (rc1 ',' 'X' ch))

/-- tells whether a sink response is a rejection: an HTTP non-2xx status,
or a 2xx response whose decoded body carries a falsy "ok" field. -/
def sink_rejects : SinkResp → Bool
  | .raised _ => false
  | .resp httpOk body =>
      if httpOk then
        match body with
        | .error _ => false
        | .ok jsonOk => !jsonOk
      else true

/-- helper: the shared body of the three esteira jobs returns normally
for every instant and every world. -/
theorem job_novo_total (agora : PyDateTime) (w : World) :
    ∃ t, job_novo agora w = .ok t := by
  unfold job_novo
  split
  · cases hf : w.fetch with
    | error e => exact ⟨_, rfl⟩
    | ok df =>
        cases hp : post_to_slack w.sink with
        | error e => exact ⟨_, rfl⟩
        | ok logged => exact ⟨_, rfl⟩
  · exact ⟨_, rfl⟩

/-- helper: job_resumo returns normally for every world. -/
theorem job_resumo_total (w : World) : ∃ t, job_resumo w = .ok t := by
  unfold job_resumo
  cases hf : w.fetch with
  | error e => exact ⟨_, rfl⟩
  | ok df =>
      cases hp : post_to_slack w.sink with
      | error e => exact ⟨_, rfl⟩
      | ok logged => exact ⟨_, rfl⟩

/-- Claim C1 (amended): every scheduler-registered job - job_novo,
job_refin, job_portability and job_resumo - returns normally with an
outcome for every instant and every world; no exception escapes to the
scheduling loop, because the outside-window path returns early and the
whole fallible body sits under the catch-all handler.  The
bot_superset_slack script, by contrast, propagates exceptions to its
caller: see the counterexample theorem. -/
theorem scheduled_jobs_never_raise (agora : PyDateTime) (w : World) :
    (∃ t, job_novo agora w = .ok t) ∧ (∃ t, job_refin agora w = .ok t) ∧
    (∃ t, job_portability agora w = .ok t) ∧ (∃ t, job_resumo w = .ok t) :=
  ⟨job_novo_total agora w, job_novo_total agora w, job_novo_total agora w,
   job_resumo_total w⟩

/-- Counterexample for C1 as stated: in bot_superset_slack, enviar_slack
catches SlackApiError only to print and re-raise it, and main has no
handler at all, so at this concrete input the delivery error propagates
to the caller instead of being converted into an outcome. -/
theorem enviar_slack_reraises :
    enviar_slack ("mensagem") (Except.error ("invalid_auth")) =
      Except.error ("invalid_auth") ∧
    superset_main ⟨Except.ok ("token"), Except.ok [[(), ()]],
      Except.error ("invalid_auth")⟩ = Except.error ("invalid_auth") :=
  ⟨rfl, rfl⟩

/-- Claim C2: the default window policy is false whenever the weekday is
Sunday (Python weekday 6), and on any other weekday it is true exactly
when the hour lies in the interval [6, 20). -/
theorem janela_execucao_spec (agora : PyDateTime) :
    (agora.weekday = 6 → dentro_da_janela_execucao agora = false) ∧
    (agora.weekday ≠ 6 →
      (dentro_da_janela_execucao agora = true ↔
        6 ≤ agora.hour ∧ agora.hour < 20)) := by
  constructor
  · intro h
    simp [dentro_da_janela_execucao, h]
  · intro h
    simp [dentro_da_janela_execucao, h]

/-- Witness for C2 at Sunday 10h and at Tuesday 10h. -/
theorem janela_execucao_spec_witness :
    dentro_da_janela_execucao ⟨6, 10⟩ = false ∧
    (dentro_da_janela_execucao ⟨1, 10⟩ = true ↔ 6 ≤ 10 ∧ 10 < 20) :=
  ⟨(janela_execucao_spec ⟨6, 10⟩).1 rfl,
   (janela_execucao_spec ⟨1, 10⟩).2 (by decide)⟩

/-- helper: the gate returns exactly at the first reachable attempt,
starting from any attempt index below it. -/
theorem wait_succeeds_from (reach : Nat → Bool) (N : Nat)
    (hN : ∀ k, reach k = decide (N ≤ k)) :
    ∀ fuel k, k ≤ N → N < k + fuel →
      wait_for_vpn_and_db reach k fuel = some N := by
  intro fuel
  induction fuel with
  | zero => intro k hk hlt; omega
  | succ fuel ih =>
      intro k hk hlt
      unfold wait_for_vpn_and_db
      rw [hN k]
      by_cases h : N ≤ k
      · have hkN : k = N := le_antisymm hk h
        simp [h, hkN]
      · simp only [decide_eq_true_eq]
        rw [if_neg h]
        exact ih (k + 1) (by omega) (by omega)

/-- Claim C5: the connectivity gate hands no error to its caller - for a
target whose k-th attempt succeeds exactly when N is at most k (so the
target is unreachable for the first N attempts and reachable
thereafter), the wait returns exactly at attempt N for any fuel reaching
it, having slept one poll interval per failed attempt; while the target
stays unreachable it does not return within any fuel, and the return
type has no error value at all. -/
theorem await_reachable_gate :
    (∀ (reach : Nat → Bool) (N fuel : Nat),
        (∀ k, reach k = decide (N ≤ k)) → N < fuel →
        wait_for_vpn_and_db reach 0 fuel = some N) ∧
    (∀ (reach : Nat → Bool) (fuel : Nat),
        (∀ k, reach k = false) →
        wait_for_vpn_and_db reach 0 fuel = none) := by
  constructor
  · intro reach N fuel hN hlt
    exact wait_succeeds_from reach N hN fuel 0 (Nat.zero_le _) (by omega)
  · intro reach fuel hfail
    have hall : ∀ (f k : Nat), wait_for_vpn_and_db reach k f = none := by
      intro f
      induction f with
      | zero => intro k; rfl
      | succ f ih =>
          intro k
          unfold wait_for_vpn_and_db
          rw [hfail k]
          simpa using ih (k + 1)
    exact hall fuel 0

/-- Witness for C5: a target unreachable for the first two attempts and
reachable from the third on, against a target that never becomes
reachable. -/
theorem await_reachable_gate_witness :
    wait_for_vpn_and_db (fun k => decide (2 ≤ k)) 0 5 = some 2 ∧
    wait_for_vpn_and_db (fun _ => false) 0 5 = none :=
  ⟨await_reachable_gate.1 (fun k => decide (2 ≤ k)) 2 5 (fun _ => rfl)
      (by omega),
   await_reachable_gate.2 (fun _ => false) 5 (fun _ => rfl)⟩

/-- Claim C6: whenever the job is inside the window and the fetch raises,
the run's outcome is Failed with the fetch error and the sink delivery is
never attempted during that run. -/
theorem fetch_error_failed_no_deliver (agora : PyDateTime) (w : World)
    (e : String)
    (hwin : dentro_da_janela_execucao agora = true)
    (hfetch : w.fetch = .error e) :
    job_novo agora w =
      .ok { outcome := .Failed e, gateWaited := true, fetchAttempted := true,
            deliverAttempts := 0, rejectionLogged := false } := by
  simp [job_novo, hwin, hfetch]

/-- Witness for C6 on Tuesday 10h with a raising read. -/
theorem fetch_error_failed_no_deliver_witness :
    job_novo ⟨1, 10⟩
        ⟨Except.error ("ProgrammingError"), SinkResp.resp true (Except.ok true)⟩ =
      Except.ok ⟨JobOutcome.Failed ("ProgrammingError"), true, true, 0, false⟩ :=
  fetch_error_failed_no_deliver ⟨1, 10⟩ _ ("ProgrammingError") rfl rfl

/-- helper: a rejecting sink response makes post_to_slack return normally
with the rejection logged. -/
theorem sink_rejects_post (s : SinkResp) (h : sink_rejects s = true) :
    post_to_slack s = .ok true := by
  cases s with
  | raised e => simp [sink_rejects] at h
  | resp httpOk body =>
      cases httpOk with
      | false => rfl
      | true =>
          cases body with
          | error e => simp [sink_rejects] at h
          | ok jsonOk =>
              simp [sink_rejects] at h
              simp [post_to_slack, h]

/-- Claim C7 (amended): when the job is inside the window, the fetch
succeeds and the sink rejects the payload - a non-2xx response, or a 2xx
whose body carries a falsy ok field - the rejection is logged, exactly
one delivery attempt is made within the run, and the run's outcome is
Succeeded: the run completes normally and is not reported as Failed. -/
theorem delivery_rejection_logged_once (agora : PyDateTime) (w : World)
    (rows : List String)
    (hwin : dentro_da_janela_execucao agora = true)
    (hfetch : w.fetch = .ok rows)
    (hrej : sink_rejects w.sink = true) :
    job_novo agora w =
      .ok { outcome := .Succeeded, gateWaited := true, fetchAttempted := true,
            deliverAttempts := 1, rejectionLogged := true } := by
  simp [job_novo, hwin, hfetch, sink_rejects_post w.sink hrej]

/-- Witness for C7 (amended) on Tuesday 10h with a 2xx response whose
body has a falsy ok field. -/
theorem delivery_rejection_logged_once_witness :
    job_novo ⟨1, 10⟩
        ⟨Except.ok [("linha")], SinkResp.resp true (Except.ok false)⟩ =
      Except.ok ⟨JobOutcome.Succeeded, true, true, 1, true⟩ :=
  delivery_rejection_logged_once ⟨1, 10⟩ _ [("linha")] rfl rfl rfl

/-- Counterexample for C7 as stated: with the sink reachable but
rejecting (a non-2xx response, at this concrete input), the run logs the
rejection and makes exactly one delivery attempt, but its outcome is
Succeeded, not Failed as the claim states - post_to_slack only prints on
a rejected response, after which job_novo prints its success message and
returns normally. -/
theorem delivery_rejection_not_failed :
    job_novo ⟨1, 10⟩
        ⟨Except.ok [("linha")], SinkResp.resp false (Except.ok true)⟩ =
      Except.ok ⟨JobOutcome.Succeeded, true, true, 1, true⟩ := rfl

/-- Claim C8: outside the window the run returns Skipped without touching
the dependency - no connectivity-gate wait, no fetch and no delivery
attempt. -/
theorem outside_window_untouched (agora : PyDateTime) (w : World)
    (hwin : dentro_da_janela_execucao agora = false) :
    job_novo agora w =
      .ok { outcome := .Skipped ("Fora da janela"), gateWaited := false,
            fetchAttempted := false, deliverAttempts := 0,
            rejectionLogged := false } := by
  simp [job_novo, hwin]

/-- Witness for C8 on a Sunday at 10h. -/
theorem outside_window_untouched_witness :
    job_novo ⟨6, 10⟩
        ⟨Except.ok [("linha")], SinkResp.resp true (Except.ok true)⟩ =
      Except.ok ⟨JobOutcome.Skipped ("Fora da janela"), false, false, 0, false⟩ :=
  outside_window_untouched ⟨6, 10⟩ _ rfl

/-- Claim C9 (code bug): run_query disposes the engine on the normal
path, but when the read raises, execution leaves the with block - which
does close the checked-out connection - and propagates the exception
before ever reaching engine.dispose(), so the engine created during the
call is not released on the failure exit path. -/
theorem run_query_leaks_engine_on_error :
    (run_query (Except.error ("ProgrammingError"))).2 =
      [.createEngine, .beginConn, .closeConn] ∧
    DbEv.disposeEngine ∉ (run_query (Except.error ("ProgrammingError"))).2 ∧
    DbEv.closeConn ∈ (run_query (Except.error ("ProgrammingError"))).2 ∧
    (run_query (Except.ok [("linha")])).2 =
      [.createEngine, .beginConn, .closeConn, .disposeEngine] := by
  refine ⟨rfl, ?_, ?_, rfl⟩ <;> decide

/-- helper: due-ness does not read the entry's run function. -/
theorem isDue_run_irrel (now : Nat) (e : ScheduleEntry)
    (f : Nat → JobOutcome) :
    isDue now { e with run := f } = isDue now e := rfl

/-- helper: once an entry has been ticked, it is no longer due at the
same instant, provided its interval is positive. -/
theorem tickEntry_not_due (now : Nat) (e : ScheduleEntry)
    (hpos : 0 < e.interval) :
    isDue now (tickEntry now e) = false := by
  unfold tickEntry
  cases hb : isDue now e with
  | false => simp [hb]
  | true =>
      simp only [hb, if_true]
      simp [isDue, Nat.sub_self]
      omega

/-- Claim C3 (spec-modelled Scheduler): whenever tick(now) dispatches a
job, its entry's last_run is set to now unconditionally - the update
does not depend on the run function, so it happens even when the run is
Skipped or Failed - and a second tick at the identical instant
dispatches nothing, provided every registered interval is positive. -/
theorem tick_consumes_dueness (es : List ScheduleEntry) (now : Nat)
    (hpos : ∀ e ∈ es, 0 < e.interval) :
    (∀ e ∈ es, isDue now e = true → (tickEntry now e).lastRun = some now) ∧
    (∀ e ∈ es, ∀ f : Nat → JobOutcome,
        (tickEntry now { e with run := f }).lastRun =
          (tickEntry now e).lastRun) ∧
    (tick now (tick now es).1).2 = [] := by
  refine ⟨?_, ?_, ?_⟩
  · intro e _ h
    simp [tickEntry, h]
  · intro e _ f
    unfold tickEntry
    rw [isDue_run_irrel]
    cases hb : isDue now e <;> simp [hb]
  · have hnone : ∀ a ∈ (tick now es).1, isDue now a = false := by
      intro a ha
      simp only [tick, List.mem_map] at ha
      obtain ⟨e, he, rfl⟩ := ha
      exact tickEntry_not_due now e (hpos e he)
    simp only [tick]
    rw [List.map_eq_nil_iff]
    rw [List.filter_eq_nil_iff]
    intro a ha
    simp [hnone a ha]

/-- Witness for C3: the concrete esteira registry ticked twice at
instant 100 dispatches nothing the second time. -/
theorem tick_consumes_dueness_witness :
    (tick 100 (tick 100 registroEsteiras).1).2 = [] :=
  (tick_consumes_dueness registroEsteiras 100
    (by
      intro e he
      simp only [registroEsteiras, List.mem_cons, List.not_mem_nil,
        or_false] at he
      rcases he with h | h | h <;> subst h <;> decide)).2.2

/-- Claim C4 (spec-modelled Scheduler): an entry with interval rule
"every N units" is due at instant now exactly when now - last_run is at
least N; with N = 30 and last_run = t it is due at t + 30 and not due at
t + 29; and a null last_run is due immediately, so the first tick after
registration dispatches the job once. -/
theorem interval_rule_correct (nm : String) (r : Nat → JobOutcome)
    (N t now : Nat) :
    (isDue now ⟨nm, N, some t, r⟩ = decide (N ≤ now - t)) ∧
    (isDue now ⟨nm, N, none, r⟩ = true) ∧
    (isDue (t + 30) ⟨nm, 30, some t, r⟩ = true) ∧
    (isDue (t + 29) ⟨nm, 30, some t, r⟩ = false) ∧
    ((tick now [⟨nm, N, none, r⟩]).2 = [(nm, r now)]) := by
  refine ⟨rfl, rfl, ?_, ?_, ?_⟩
  · simp only [isDue, decide_eq_true_eq]
    omega
  · simp only [isDue, decide_eq_false_iff_not]
    omega
  · simp [tick, isDue]

/-- helper: the replace chain acts on a digit character as the identity. -/
theorem swapChar_digit (ch : Char) (h : ch ∈ digitChars) :
    swapChar ch = ch := by
  fin_cases h <;> rfl

/-- helper: the replace chain fixes every list of digit characters. -/
theorem map_swapChar_digits (ds : List Char)
    (h : ∀ ch ∈ ds, ch ∈ digitChars) : ds.map swapChar = ds := by
  induction ds with
  | nil => rfl
  | cons c cs ih =>
      simp only [List.map_cons]
      rw [swapChar_digit c (h c (List.mem_cons_self c cs))]
      rw [ih fun ch hch => h ch (List.mem_cons_of_mem c hch)]

end Mensageiro
